import Mathlib

/-!
Shallow embedding of the recurring-invoice engine of `app_v2 (1).py`
(invoice number allocator, totals calculator, recurrence clock,
status transitions, recurring-invoice generator).

Modelling conventions:
* timestamps (`datetime`) are integers counting seconds; `timedelta(days=1)`
  is 86400, `timedelta(weeks=1)` is 604800, `timedelta(days=30)` is 2592000;
* float currency arithmetic is modelled exactly over `ℚ`;
* nullable columns are `Option`; Python truthiness of an optional string
  (`None` and `""` are falsy) is `truthyStr`;
* Python string operations are implemented structurally over `String.data`
  (the built-in `String` recursors do not reduce in the kernel);
* the database session is a `DBState` record threaded through the stateful
  routes; `send_invoice_email` (an external collaborator returning a bool)
  is an oracle parameter `sendEmail`; the current clock (`datetime.now()` /
  `datetime.utcnow()`) is passed in as `yearMonth` / `now` parameters;
* the Python field `invoice_prefix` is spelled `invoicePrefix`;
* Python code that can raise (`int(...)` on a non-numeric string) returns
  `Option`, `none` standing for the propagating exception.
-/

namespace Webdev

/-- Python truthiness of a nullable string: `None` and `""` are falsy. -/
def truthyStr : Option String → Bool
  | none => false
  | some s => !(s == "")

/-- Python `str.upper()` (ASCII case mapping, as used on prefixes). -/
def pyUpper (s : String) : String :=
  String.mk (s.data.map Char.toUpper)

/-- Python `str.capitalize()`: first character upper-cased, rest lower-cased. -/
def pyCapitalize (s : String) : String :=
  match s.data with
  | [] => String.mk []
  | c :: cs => String.mk (Char.toUpper c :: cs.map Char.toLower)

/-- `f'{n:04d}'`: decimal digits of `n`, zero-padded on the left to width 4
(wider values keep all their digits, there is no truncation). -/
def pad4 (n : Nat) : String :=
  let s := Nat.repr n
  String.mk (List.replicate (4 - s.length) '0') ++ s

/-- SQL `ORDER BY invoice_number DESC ... first()`: the lexicographically
greatest string of a list, `none` on the empty list. -/
def maxString? : List String → Option String
  | [] => none
  | s :: rest =>
    match maxString? rest with
    | none => some s
    | some m => some (if m.data < s.data then s else m)

/-- Python `s.split('-')`: split at every `'-'`, keeping empty fields;
never returns an empty list. -/
def splitDash : List Char → List (List Char)
  | [] => [[]]
  | c :: rest =>
    if c = '-' then [] :: splitDash rest
    else
      match splitDash rest with
      | [] => [[c]]
      | f :: fs => (c :: f) :: fs

/-- `int(s.split('-')[-1])`: the field after the last `'-'`, parsed as a
decimal numeral; `none` models the `ValueError` Python raises when the
field is not a numeral. -/
def trailingNat (s : String) : Option Nat :=
  let last := (splitDash s.data).getLastD []
  if last ≠ [] ∧ last.all Char.isDigit then
    some (last.foldl (fun n c => n * 10 + (c.toNat - '0'.toNat)) 0)
  else none

/-- SQL `LIKE '{pat}%'`: `pat` is a prefix of `s`. -/
def strStartsWith (pat s : String) : Bool :=
  pat.data.isPrefixOf s.data

/-- `timedelta(days=1)` in seconds. -/
def oneDay : Int := 86400

/-- `timedelta(weeks=1)` in seconds. -/
def oneWeek : Int := 604800

/-- `timedelta(days=30)` in seconds. -/
def thirtyDays : Int := 2592000

/-- Row of the `users` table (the fields the engine reads). -/
structure User where
  id : Nat
  email : String
  invoicePrefix : Option String
deriving DecidableEq

/-- Row of the `clients` table (the fields the engine reads). -/
structure Client where
  id : Nat
  name : String
  email : String
  invoicePrefix : Option String
deriving DecidableEq

/-- Row of the `invoice_items` table. -/
structure InvoiceItem where
  description : String
  quantity : ℚ
  unit_price : ℚ
  amount : ℚ
  invoice_id : Nat
deriving DecidableEq

/-- Row of the `invoices` table.  The SQLAlchemy relationship lookups
`invoice.user` / `invoice.client` are denormalised into `user` / `client`
fields (the engine never mutates users or clients). -/
structure Invoice where
  id : Nat
  invoice_number : String
  date : Int
  due_date : Int
  status : String
  total_amount : ℚ
  tax_rate : ℚ
  tax_amount : ℚ
  subtotal : ℚ
  notes : String
  terms : String
  title : String
  is_recurring : Bool
  frequency : Option String
  initial_send_date : Option Int
  next_send_date : Option Int
  user_id : Nat
  client_id : Nat
  user : User
  client : Client
  items : List InvoiceItem
deriving DecidableEq

/-- Row of the `notifications` table (the fields `create_notification` sets). -/
structure Notification where
  user_id : Nat
  title : String
  message : String
deriving DecidableEq

/-- The database session: invoice rows plus notification rows. -/
structure DBState where
  invoices : List Invoice
  notifications : List Notification
deriving DecidableEq

/-- `Invoice.calculate_totals` (source lines 488-491): sequential
assignments `subtotal = sum(item.amount ...)`,
`tax_amount = subtotal * (tax_rate / 100)`,
`total_amount = subtotal + tax_amount`. -/
def Invoice.calculate_totals (inv : Invoice) : Invoice :=
  let sub := (inv.items.map (fun it => it.amount)).sum
  let tax := sub * (inv.tax_rate / 100)
  { inv with subtotal := sub, tax_amount := tax, total_amount := sub + tax }

/-- `Invoice.is_completed` (source lines 493-494). -/
def Invoice.is_completed (inv : Invoice) : Bool :=
  inv.status == "paid" || inv.status == "cancelled"

/-- `Invoice.calculate_next_send_date` (source lines 496-506).  The Python
`or`-chain on datetimes picks the first non-`None` value (datetimes are
always truthy). -/
def Invoice.calculate_next_send_date (inv : Invoice) : Option Int :=
  if !inv.is_recurring || !(truthyStr inv.frequency) then none
  else
    let base := inv.next_send_date.getD (inv.initial_send_date.getD inv.date)
    if inv.frequency == some "daily" then some (base + oneDay)
    else if inv.frequency == some "weekly" then some (base + oneWeek)
    else if inv.frequency == some "monthly" then some (base + thirtyDays)
    else none

/-- Prefix resolution of `generate_invoice_number` (source lines 591-596):
`if client and client.invoice_prefix: ... elif user and user.invoice_prefix:
... else: prefix`, each branch applying `.upper()`. -/
def resolvePrefix (user : Option User) (client : Option Client) (p : String) : String :=
  if truthyStr (client.bind (fun c => c.invoicePrefix)) then
    pyUpper ((client.bind (fun c => c.invoicePrefix)).getD "")
  else if truthyStr (user.bind (fun u => u.invoicePrefix)) then
    pyUpper ((user.bind (fun u => u.invoicePrefix)).getD "")
  else
    pyUpper p

/-- Number allocation of `generate_invoice_number` (source lines 598-612):
find the lexicographically greatest invoice number matching
`{prefix}-{year_month}-%`, parse its trailing field with `int`, add 1
(start at 1 when the scope is empty), format with `f'..-{new_num:04d}'`. -/
def allocate_number (dbNumbers : List String) (yearMonth p : String) : Option String :=
  let pattern := p ++ "-" ++ yearMonth ++ "-"
  let matching := dbNumbers.filter (fun s => strStartsWith pattern s)
  match maxString? matching with
  | none => some (pattern ++ pad4 1)
  | some last =>
    match trailingNat last with
    | none => none
    | some lastNum => some (pattern ++ pad4 (lastNum + 1))

/-- `generate_invoice_number(user, client, prefix)` (source lines 590-612);
`dbNumbers` is the set of persisted `invoice_number` strings and
`yearMonth` is `datetime.now().strftime('%Y%m')`. -/
def generate_invoice_number (dbNumbers : List String) (yearMonth : String)
    (user : Option User) (client : Option Client) (p : String) : Option String :=
  allocate_number dbNumbers yearMonth (resolvePrefix user client p)

/-- `create_notification` (source lines 628-676): always inserts a
`Notification` row; the optional e-mail is best-effort and external. -/
def create_notification (st : DBState) (uid : Nat) (title message : String) : DBState :=
  { st with notifications := st.notifications ++ [⟨uid, title, message⟩] }

/-- The autoincrement primary key `db.session.flush()` assigns to a newly
added invoice row. -/
def freshId (st : DBState) : Nat :=
  (st.invoices.map (fun i => i.id)).foldr max 0 + 1

/-- The `Invoice(...)` constructor call of `process_recurring_invoices`
(source lines 366-381), plus the id assigned at `flush`. -/
def buildChild (now : Int) (newId : Nat) (num : String) (t : Invoice) : Invoice :=
  { id := newId
    invoice_number := num
    date := now
    due_date := now + (t.due_date - t.date)
    status := "draft"
    total_amount := 0
    tax_rate := t.tax_rate
    tax_amount := 0
    subtotal := 0
    notes := t.notes
    terms := t.terms
    title := t.title
    is_recurring := false
    frequency := none
    initial_send_date := none
    next_send_date := none
    user_id := t.user_id
    client_id := t.client_id
    user := t.user
    client := t.client
    items := [] }

/-- Item copying of `process_recurring_invoices` (source lines 386-393):
description, quantity, unit_price and amount copied verbatim. -/
def copyItems (newId : Nat) (items : List InvoiceItem) : List InvoiceItem :=
  items.map (fun it =>
    { description := it.description
      quantity := it.quantity
      unit_price := it.unit_price
      amount := it.amount
      invoice_id := newId })

/-- Steps 1-3 of `process_recurring_invoices` for one template
(source lines 362-395): allocate a number, build the child, copy the
items, run `calculate_totals`.  `none` models a propagating exception
from `generate_invoice_number`. -/
def makeChild (st : DBState) (yearMonth : String) (now : Int) (t : Invoice) :
    Option Invoice :=
  match generate_invoice_number (st.invoices.map (fun i => i.invoice_number)) yearMonth
      (some t.user) (some t.client) "INV" with
  | none => none
  | some num =>
    let c := buildChild now (freshId st) num t
    some (Invoice.calculate_totals { c with items := copyItems c.id t.items })

/-- Replace the invoice row with primary key `iid` by `f` applied to it. -/
def setInvoice (st : DBState) (iid : Nat) (f : Invoice → Invoice) : DBState :=
  { st with invoices := st.invoices.map (fun i => if i.id = iid then f i else i) }

/-- One loop iteration of `process_recurring_invoices` (source lines
361-422): create and commit the child, advance the template's
`next_send_date`, attempt delivery, set the child to `sent` only on
success, and record the matching notification. -/
def processOne (sendEmail : Invoice → Bool) (yearMonth : String) (now : Int)
    (st : DBState) (t : Invoice) : Option DBState :=
  match makeChild st yearMonth now t with
  | none => none
  | some child =>
    let tAdvanced := { t with next_send_date := t.calculate_next_send_date }
    let committed : DBState :=
      { st with invoices :=
          (st.invoices.map (fun i => if i.id = t.id then tAdvanced else i)) ++ [child] }
    if sendEmail child then
      create_notification
        (setInvoice committed child.id (fun i => { i with status := "sent" }))
        t.user_id "Recurring Invoice Sent"
        ("Automated invoice " ++ child.invoice_number ++ " successfully sent to "
          ++ t.client.name)
    else
      create_notification committed t.user_id "Recurring Email Failed"
        ("Generated invoice " ++ child.invoice_number ++ " but email failed. Status is Draft.")

/-- The `for template in recurring_templates` loop: an uncaught exception
in one iteration (`none`) aborts the whole cycle. -/
def runLoop (sendEmail : Invoice → Bool) (yearMonth : String) (now : Int) :
    DBState → List Invoice → Option DBState
  | st, [] => some st
  | st, t :: rest =>
    match processOne sendEmail yearMonth now st t with
    | none => none
    | some st1 => runLoop sendEmail yearMonth now st1 rest

/-- The due-template selection predicate of `process_recurring_invoices`
(source lines 352-356); a SQL comparison against a NULL `next_send_date`
is false. -/
def duePred (now : Int) (inv : Invoice) : Bool :=
  inv.is_recurring &&
    (match inv.next_send_date with
     | some d => decide (d ≤ now)
     | none => false) &&
    !(inv.status == "cancelled")

/-- `process_recurring_invoices` (source lines 348-422). -/
def process_recurring_invoices (sendEmail : Invoice → Bool) (yearMonth : String)
    (now : Int) (st : DBState) : Option DBState :=
  runLoop sendEmail yearMonth now st (st.invoices.filter (duePred now))

/-- `first_or_404` lookup by primary key. -/
def findInvoice (st : DBState) (iid : Nat) : Option Invoice :=
  st.invoices.find? (fun i => i.id == iid)

/-- The `status_messages` dict of `update_invoice_status` (source lines
1026-1031), with the `.get(new_status, new_status)` fallback. -/
def statusMessage (s : String) : String :=
  if s == "draft" then "moved to Draft"
  else if s == "paid" then "has been Paid ✓"
  else if s == "overdue" then "is now Overdue ⚠️"
  else if s == "cancelled" then "has been Cancelled"
  else s

/-- `update_invoice_status` (source lines 1004-1043).  The route is
admin-only and filters by `user_id=current_user.id`, so the acting user is
the invoice's `user_id`.  Marking `sent` first attempts delivery and
changes the status only on success; every other listed status is applied
unconditionally and records a notification.  An unknown status or id is a
no-op on the database. -/
def update_invoice_status (sendEmail : Invoice → Bool) (st : DBState)
    (iid : Nat) (new_status : String) : DBState :=
  match findInvoice st iid with
  | none => st
  | some inv =>
    if (["draft", "sent", "paid", "overdue", "cancelled"] : List String).contains new_status then
      if new_status == "sent" then
        if sendEmail inv then
          setInvoice st iid (fun i => { i with status := "sent" })
        else st
      else
        create_notification
          (setInvoice st iid (fun i => { i with status := new_status }))
          inv.user_id
          ("Invoice Status Changed: " ++ pyCapitalize new_status)
          ("Invoice " ++ inv.invoice_number ++ " " ++ statusMessage new_status)
    else st

/-- Python `f'{x:.2f}'` on a currency amount, modelled over exact
rationals with round-half-up: the cent count is
`⌊q * 100 + 1/2⌋ = fdiv (200 * num + den) (2 * den)`. -/
def fmt2 (q : ℚ) : String :=
  let cents : Int := Int.fdiv (200 * q.num + q.den) (2 * q.den)
  let a := cents.natAbs
  let r := Nat.repr (a % 100)
  (if cents < 0 then "-" else "") ++ Nat.repr (a / 100) ++ "."
    ++ String.mk (List.replicate (2 - r.length) '0') ++ r

/-- `customer_pay_invoice` (source lines 1206-1249): an invoice already
`paid` or `cancelled` is left untouched (only an informational flash);
otherwise the status becomes `paid` and two notifications are recorded
(admin, then paying customer `customerId`). -/
def customer_pay_invoice (st : DBState) (iid : Nat) (customerId : Nat) : DBState :=
  match findInvoice st iid with
  | none => st
  | some inv =>
    if inv.status == "paid" || inv.status == "cancelled" then st
    else
      let st1 := setInvoice st iid (fun i => { i with status := "paid" })
      let st2 := create_notification st1 inv.user_id "💰 Invoice Paid by Customer"
        (inv.client.name ++ " has marked invoice " ++ inv.invoice_number
          ++ " as paid. Amount: $" ++ fmt2 inv.total_amount)
      create_notification st2 customerId "✅ Payment Confirmation"
        ("Thank you, " ++ inv.client.name ++ "! Your payment for invoice "
          ++ inv.invoice_number ++ " in the amount of $" ++ fmt2 inv.total_amount
          ++ " has been confirmed.")

/-- The status column of the invoice row with primary key `iid`. -/
def statusOf (st : DBState) (iid : Nat) : Option String :=
  (findInvoice st iid).map (fun i => i.status)

/-! Concrete sample rows used by counterexamples and witnesses. -/

/-- Sample admin user without a configured prefix. -/
def sampleUser : User := { id := 1, email := "admin@example.com", invoicePrefix := none }

/-- Sample client with configured prefix `AAA`. -/
def clientAAA : Client :=
  { id := 1, name := "Acme", email := "acme@example.com", invoicePrefix := some "AAA" }

/-- Sample client with configured prefix `BBB`. -/
def clientBBB : Client :=
  { id := 2, name := "Bmax", email := "bmax@example.com", invoicePrefix := some "BBB" }

/-- Sample client with configured prefix `CLI`. -/
def clientCLI : Client :=
  { id := 3, name := "Cleo", email := "cleo@example.com", invoicePrefix := some "CLI" }

/-- Sample line item: quantity 2 at unit price 50. -/
def sampleItem : InvoiceItem :=
  { description := "work", quantity := 2, unit_price := 50, amount := 100, invoice_id := 2 }

/-- A persisted invoice whose number has a non-numeric trailing field;
`int()` raises on it inside `generate_invoice_number`. -/
def garbageAAA : Invoice :=
  { id := 1, invoice_number := "AAA-202401-BAD", date := 0, due_date := 10, status := "sent",
    total_amount := 0, tax_rate := 0, tax_amount := 0, subtotal := 0,
    notes := "", terms := "", title := "", is_recurring := false, frequency := none,
    initial_send_date := none, next_send_date := none, user_id := 1, client_id := 1,
    user := sampleUser, client := clientAAA, items := [] }

/-- A due monthly template for client `AAA`. -/
def tmplAAA : Invoice :=
  { id := 2, invoice_number := "AAA-202312-0001", date := 0, due_date := 864000,
    status := "draft", total_amount := 108, tax_rate := 8, tax_amount := 8, subtotal := 100,
    notes := "n", terms := "t", title := "T", is_recurring := true,
    frequency := some "monthly", initial_send_date := some 0, next_send_date := some 100,
    user_id := 1, client_id := 1, user := sampleUser, client := clientAAA,
    items := [sampleItem] }

/-- A due monthly template for client `BBB`. -/
def tmplBBB : Invoice :=
  { tmplAAA with
      id := 3
      invoice_number := "BBB-202312-0001"
      client := clientBBB
      client_id := 2
      items := [{ sampleItem with invoice_id := 3 }] }

/-- State with two due templates, the first of which makes allocation raise
(the `AAA` scope's greatest number has a non-numeric trailing field). -/
def stTwoTemplates : DBState :=
  { invoices := [garbageAAA, tmplAAA, tmplBBB], notifications := [] }

/-- State with the single due template `tmplBBB`. -/
def stOneTemplate : DBState := { invoices := [tmplBBB], notifications := [] }

/-- A paid invoice. -/
def paidInvoice : Invoice :=
  { garbageAAA with id := 9, invoice_number := "INV-202401-0009", status := "paid" }

/-- State containing only the paid invoice. -/
def stPaid : DBState := { invoices := [paidInvoice], notifications := [] }

/-- A draft invoice. -/
def draftInvoice : Invoice :=
  { garbageAAA with id := 4, invoice_number := "INV-202401-0004", status := "draft" }

/-- State containing only the draft invoice. -/
def stDraft : DBState := { invoices := [draftInvoice], notifications := [] }

/-- Variant of `tmplAAA` differing only in a field irrelevant to totals. -/
def tmplAAAnotes : Invoice := { tmplAAA with notes := "other" }

/-- The child that `makeChild` builds from `tmplBBB` inside
`stOneTemplate` at `now = 1000` in month `202401`. -/
def childBBB : Invoice :=
  Invoice.calculate_totals
    { buildChild 1000 (freshId stOneTemplate) "BBB-202401-0001" tmplBBB with
      items := copyItems
        (buildChild 1000 (freshId stOneTemplate) "BBB-202401-0001" tmplBBB).id
        tmplBBB.items }

/-! Helper lemmas shared between the claim theorems. -/

lemma find_update (l : List Invoice) (iid : Nat) (f : Invoice → Invoice)
    (hf : ∀ i, (f i).id = i.id) :
    (l.map (fun i => if i.id = iid then f i else i)).find? (fun i => i.id == iid)
      = (l.find? (fun i => i.id == iid)).map (fun i => if i.id = iid then f i else i) := by
  induction l with
  | nil => rfl
  | cons a l ih =>
    by_cases h : a.id = iid
    · simp [List.find?_cons, h, hf]
    · simp [List.find?_cons, h, ih]

lemma findInvoice_setInvoice (st : DBState) (iid : Nat) (f : Invoice → Invoice)
    (hf : ∀ i, (f i).id = i.id) :
    findInvoice (setInvoice st iid f) iid
      = (findInvoice st iid).map (fun i => if i.id = iid then f i else i) := by
  unfold findInvoice setInvoice
  exact find_update st.invoices iid f hf

lemma findInvoice_id (st : DBState) (iid : Nat) (inv : Invoice)
    (h : findInvoice st iid = some inv) : inv.id = iid := by
  have := List.find?_some h
  simpa using this

lemma statusOf_create_notification (st : DBState) (uid : Nat) (ti msg : String)
    (iid : Nat) :
    statusOf (create_notification st uid ti msg) iid = statusOf st iid := rfl

lemma statusOf_setStatus (st : DBState) (iid : Nat) (s : String) :
    statusOf (setInvoice st iid (fun i => { i with status := s })) iid
      = (findInvoice st iid).map (fun _ => s) := by
  unfold statusOf
  rw [findInvoice_setInvoice st iid (fun i => { i with status := s }) (fun i => rfl)]
  cases h : findInvoice st iid with
  | none => rfl
  | some inv => simp [findInvoice_id st iid inv h]

lemma makeChild_eq (st : DBState) (ym : String) (now : Int) (t : Invoice) (c : Invoice)
    (hm : makeChild st ym now t = some c) :
    ∃ num, generate_invoice_number (st.invoices.map (fun i => i.invoice_number)) ym
        (some t.user) (some t.client) "INV" = some num ∧
      c = Invoice.calculate_totals
        { buildChild now (freshId st) num t with
          items := copyItems (buildChild now (freshId st) num t).id t.items } := by
  unfold makeChild at hm
  cases hg : generate_invoice_number (st.invoices.map (fun i => i.invoice_number)) ym
      (some t.user) (some t.client) "INV" with
  | none => rw [hg] at hm; exact absurd hm (by simp)
  | some num =>
    rw [hg] at hm
    simp only [Option.some.injEq] at hm
    exact ⟨num, rfl, hm.symm⟩

lemma makeChild_fields (st : DBState) (ym : String) (now : Int) (t : Invoice) (c : Invoice)
    (hm : makeChild st ym now t = some c) :
    c.date = now ∧ c.due_date = now + (t.due_date - t.date) ∧ c.tax_rate = t.tax_rate ∧
      c.notes = t.notes ∧ c.terms = t.terms ∧ c.title = t.title ∧
      c.is_recurring = false ∧ c.status = "draft" ∧ c.frequency = none ∧
      c.initial_send_date = none ∧ c.next_send_date = none := by
  obtain ⟨num, -, rfl⟩ := makeChild_eq st ym now t c hm
  simp [Invoice.calculate_totals, buildChild]

lemma processOne_status (f : Invoice → Bool) (ym : String) (now : Int) (st : DBState)
    (t : Invoice) (c : Invoice) (hm : makeChild st ym now t = some c) :
    (processOne f ym now st t).map (fun s1 => (s1.invoices.getLastD t).status)
      = some (if f c then "sent" else c.status) := by
  simp only [processOne, hm]
  by_cases hf : f c <;>
    simp [hf, create_notification, setInvoice, List.map_append, List.getLastD_concat]

lemma processOne_notifications (f : Invoice → Bool) (ym : String) (now : Int) (st : DBState)
    (t : Invoice) (c : Invoice) (hm : makeChild st ym now t = some c) :
    (processOne f ym now st t).map (fun s1 => s1.notifications)
      = some (st.notifications ++
          [if f c then
            ⟨t.user_id, "Recurring Invoice Sent",
              "Automated invoice " ++ c.invoice_number ++ " successfully sent to "
                ++ t.client.name⟩
          else
            ⟨t.user_id, "Recurring Email Failed",
              "Generated invoice " ++ c.invoice_number
                ++ " but email failed. Status is Draft."⟩]) := by
  simp only [processOne, hm]
  by_cases hf : f c <;> simp [hf, create_notification, setInvoice]

/-! Claim theorems. -/

/-- C1: the claim asserts that the number returned by
`generate_invoice_number` always differs from every `invoice_number`
already present, in particular when the scope holds sequence values of
different digit widths.  The code takes the lexicographically greatest
matching string, so with both `...-9999` and `...-10000` present it
re-reads `...-9999` and returns the already-existing `...-10000`,
violating the schema's own unique constraint on `invoice_number`. -/
theorem invoice_number_collision_after_width_change :
    generate_invoice_number ["INV-202401-9999", "INV-202401-10000"] "202401" none none "INV"
        = some "INV-202401-10000" ∧
      "INV-202401-10000" ∈ ["INV-202401-9999", "INV-202401-10000"] := by
  refine ⟨by decide, by decide⟩

/-- C3: with resolved prefix `p` and current year-month `ym`, if the scope
has a matching invoice number then the result is the trailing sequence of
the lexicographically greatest match plus one, zero-padded to 4 digits;
if the scope is empty the result ends in `0001`; a sequence crossing 9999
widens the field instead of raising; and `generate_invoice_number` is the
allocator applied to the resolved prefix. -/
theorem allocator_sequencing :
    (∀ (db : List String) (ym p m : String) (n : Nat),
        maxString? (db.filter (fun s => strStartsWith (p ++ "-" ++ ym ++ "-") s)) = some m →
        trailingNat m = some n →
        allocate_number db ym p = some ((p ++ "-" ++ ym ++ "-") ++ pad4 (n + 1))) ∧
      (∀ (db : List String) (ym p : String),
        db.filter (fun s => strStartsWith (p ++ "-" ++ ym ++ "-") s) = [] →
        allocate_number db ym p = some ((p ++ "-" ++ ym ++ "-") ++ "0001")) ∧
      allocate_number ["INV-202401-9999"] "202401" "INV" = some "INV-202401-10000" ∧
      (∀ (db : List String) (ym : String) (u : Option User) (c : Option Client) (p : String),
        generate_invoice_number db ym u c p = allocate_number db ym (resolvePrefix u c p)) := by
  refine ⟨?_, ?_, by decide, fun _ _ _ _ _ => rfl⟩
  · intro db ym p m n h1 h2
    simp only [allocate_number, h1, h2]
  · intro db ym p h
    have hpad : pad4 1 = "0001" := by decide
    simp only [allocate_number, h, maxString?, hpad]

/-- Witness for C3: the allocator evaluated on a populated scope and on an
empty scope. -/
theorem allocator_sequencing_witness :
    allocate_number ["INV-202401-0007", "XYZ-202401-0003"] "202401" "INV"
        = some "INV-202401-0008" ∧
      allocate_number ["XYZ-202401-0003"] "202401" "INV" = some "INV-202401-0001" := by
  constructor
  · rw [allocator_sequencing.1 ["INV-202401-0007", "XYZ-202401-0003"] "202401" "INV"
      "INV-202401-0007" 7 (by decide) (by decide)]
    decide
  · rw [allocator_sequencing.2.1 ["XYZ-202401-0003"] "202401" "INV" (by decide)]
    decide

/-- C6: `calculate_next_send_date` returns `none` when recurrence is off,
the frequency is null (or empty, which Python treats as falsy) or
unrecognized; otherwise it adds 1 day / 7 days / a fixed 30 days to the
first non-null of `next_send_date`, `initial_send_date`, `date`. -/
theorem recurrence_clock (inv : Invoice) :
    (inv.is_recurring = false → inv.calculate_next_send_date = none) ∧
      (inv.frequency = none → inv.calculate_next_send_date = none) ∧
      (∀ s, inv.frequency = some s → s ∉ (["daily", "weekly", "monthly"] : List String) →
        inv.calculate_next_send_date = none) ∧
      (inv.is_recurring = true → inv.frequency = some "daily" →
        inv.calculate_next_send_date
          = some (inv.next_send_date.getD (inv.initial_send_date.getD inv.date) + oneDay)) ∧
      (inv.is_recurring = true → inv.frequency = some "weekly" →
        inv.calculate_next_send_date
          = some (inv.next_send_date.getD (inv.initial_send_date.getD inv.date) + oneWeek)) ∧
      (inv.is_recurring = true → inv.frequency = some "monthly" →
        inv.calculate_next_send_date
          = some (inv.next_send_date.getD (inv.initial_send_date.getD inv.date) + thirtyDays)) := by
  refine ⟨?_, ?_, ?_, ?_, ?_, ?_⟩
  · intro h; simp [Invoice.calculate_next_send_date, h]
  · intro h; simp [Invoice.calculate_next_send_date, h, truthyStr]
  · intro s hs hmem
    have hd : s ≠ "daily" := fun h => hmem (by simp [h])
    have hw : s ≠ "weekly" := fun h => hmem (by simp [h])
    have hm : s ≠ "monthly" := fun h => hmem (by simp [h])
    by_cases he : s = ""
    · simp [Invoice.calculate_next_send_date, hs, truthyStr, he]
    · simp [Invoice.calculate_next_send_date, hs, truthyStr, he, hd, hw, hm]
  · intro h1 h2; simp [Invoice.calculate_next_send_date, h1, h2, truthyStr]
  · intro h1 h2; simp [Invoice.calculate_next_send_date, h1, h2, truthyStr]
  · intro h1 h2; simp [Invoice.calculate_next_send_date, h1, h2, truthyStr]

/-- Witness for C6: the clock evaluated on the concrete monthly template
and on a non-recurring invoice. -/
theorem recurrence_clock_witness :
    tmplBBB.calculate_next_send_date = some (100 + thirtyDays) ∧
      garbageAAA.calculate_next_send_date = none := by
  constructor
  · exact (recurrence_clock tmplBBB).2.2.2.2.2 rfl rfl
  · exact (recurrence_clock garbageAAA).1 rfl

/-- C7: after `calculate_totals`, `subtotal` is the sum of the item
amounts, `tax_amount` is `subtotal * tax_rate / 100`, `total_amount` is
their sum; the item list is untouched, the computation is idempotent, and
it is a deterministic function of the item set and tax rate (the model is
a pure function, so it performs no I/O). -/
theorem totals_calculator (inv : Invoice) :
    (inv.calculate_totals).subtotal = (inv.items.map (fun it => it.amount)).sum ∧
      (inv.calculate_totals).tax_amount
        = (inv.calculate_totals).subtotal * inv.tax_rate / 100 ∧
      (inv.calculate_totals).total_amount
        = (inv.calculate_totals).subtotal + (inv.calculate_totals).tax_amount ∧
      (inv.calculate_totals).items = inv.items ∧
      (inv.calculate_totals).calculate_totals = inv.calculate_totals ∧
      (∀ inv2 : Invoice, inv2.items = inv.items → inv2.tax_rate = inv.tax_rate →
        (inv2.calculate_totals).subtotal = (inv.calculate_totals).subtotal ∧
          (inv2.calculate_totals).tax_amount = (inv.calculate_totals).tax_amount ∧
          (inv2.calculate_totals).total_amount = (inv.calculate_totals).total_amount) := by
  refine ⟨rfl, ?_, rfl, rfl, rfl, ?_⟩
  · simp [Invoice.calculate_totals, mul_div_assoc]
  · intro inv2 h1 h2
    refine ⟨?_, ?_, ?_⟩ <;> simp [Invoice.calculate_totals, h1, h2]

/-- Witness for C7: determinism instantiated at two concrete invoices that
differ only in their notes. -/
theorem totals_calculator_witness :
    (tmplAAAnotes.calculate_totals).subtotal = (tmplAAA.calculate_totals).subtotal ∧
      (tmplAAAnotes.calculate_totals).total_amount
        = (tmplAAA.calculate_totals).total_amount := by
  have h := (totals_calculator tmplAAA).2.2.2.2.2 tmplAAAnotes rfl rfl
  exact ⟨h.1, h.2.2⟩

/-- C2 (counterexample): the claim says a failing delivery on a manual
update to `sent` records a failure notification; the route only flashes a
message and records no notification row — the state is returned entirely
unchanged. -/
theorem manual_sent_failure_records_nothing :
    draftInvoice.status = "draft" ∧
      stDraft.notifications = [] ∧
      update_invoice_status (fun _ => false) stDraft 4 "sent" = stDraft := by
  refine ⟨rfl, rfl, by decide⟩

/-- C2 (amended): both in the recurring generator and in the manual status
update targeting `sent`, the status becomes `sent` exactly when the
delivery attempt of that call succeeds.  In the generator a failed
delivery leaves the child at `draft` and a failure notification is
recorded, and a successful one records a success notification; the manual
route leaves the status unchanged on failure and records no notification
row in either outcome. -/
theorem delivery_gated_transition :
    (∀ (f : Invoice → Bool) (ym : String) (now : Int) (st : DBState) (t : Invoice),
        (processOne f ym now st t).map (fun s1 => (s1.invoices.getLastD t).status)
            = (makeChild st ym now t).map (fun c => if f c then "sent" else "draft") ∧
          (processOne f ym now st t).map (fun s1 => s1.notifications)
            = (makeChild st ym now t).map (fun c =>
                st.notifications ++
                  [if f c then
                    ⟨t.user_id, "Recurring Invoice Sent",
                      "Automated invoice " ++ c.invoice_number ++ " successfully sent to "
                        ++ t.client.name⟩
                  else
                    ⟨t.user_id, "Recurring Email Failed",
                      "Generated invoice " ++ c.invoice_number
                        ++ " but email failed. Status is Draft."⟩])) ∧
      (∀ (f : Invoice → Bool) (st : DBState) (iid : Nat),
        statusOf (update_invoice_status f st iid "sent") iid
            = (findInvoice st iid).map (fun i => if f i then "sent" else i.status) ∧
          (update_invoice_status f st iid "sent").notifications = st.notifications) := by
  constructor
  · intro f ym now st t
    cases hm : makeChild st ym now t with
    | none =>
      constructor <;> simp [processOne, hm]
    | some c =>
      have hst := (makeChild_fields st ym now t c hm).2.2.2.2.2.2.2.1
      constructor
      · rw [processOne_status f ym now st t c hm, hst]
        simp
      · rw [processOne_notifications f ym now st t c hm]
        simp [apply_ite]
  · intro f st iid
    have hcontains :
        ((["draft", "sent", "paid", "overdue", "cancelled"] : List String).contains "sent")
          = true := by decide
    cases hfind : findInvoice st iid with
    | none =>
      constructor <;> simp [update_invoice_status, statusOf, hfind]
    | some inv =>
      by_cases hf : f inv
      · constructor
        · simp only [update_invoice_status, hfind, hcontains, if_true, hf]
          have := statusOf_setStatus st iid "sent"
          simp only [beq_self_eq_true, if_true] at this ⊢
          rw [this, hfind]
          simp [hf]
        · simp [update_invoice_status, hfind, hcontains, hf, setInvoice]
      · constructor
        · simp only [update_invoice_status, hfind, hcontains, if_true, hf]
          simp [statusOf, hfind, hf]
        · simp [update_invoice_status, hfind, hcontains, hf]

/-- C4 (counterexample): with two due templates where the first raises
inside number allocation, the whole cycle aborts — the exception is not
caught, so the second due template is never processed and no child of it
is persisted. -/
theorem cycle_aborts_on_first_failure :
    (stTwoTemplates.invoices.filter (duePred 1000)).length = 2 ∧
      process_recurring_invoices (fun _ => true) "202401" 1000 stTwoTemplates = none := by
  refine ⟨by decide, by decide⟩

/-- C4 (amended): the loop body has no exception handler, so a failure
while processing one template aborts the cycle and every remaining due
template goes unprocessed; the cycle is exactly the loop over the due
templates. -/
theorem cycle_without_isolation :
    (∀ (f : Invoice → Bool) (ym : String) (now : Int) (st : DBState) (t : Invoice)
        (rest : List Invoice),
        processOne f ym now st t = none → runLoop f ym now st (t :: rest) = none) ∧
      (∀ (f : Invoice → Bool) (ym : String) (now : Int) (st : DBState),
        process_recurring_invoices f ym now st
          = runLoop f ym now st (st.invoices.filter (duePred now))) := by
  constructor
  · intro f ym now st t rest h
    simp [runLoop, h]
  · intro f ym now st
    rfl

/-- Witness for C4: the loop applied to the two concrete due templates
aborts because the first one fails. -/
theorem cycle_without_isolation_witness :
    runLoop (fun _ => true) "202401" 1000 stTwoTemplates [tmplAAA, tmplBBB] = none :=
  cycle_without_isolation.1 (fun _ => true) "202401" 1000 stTwoTemplates tmplAAA [tmplBBB]
    (by decide)

/-- C5 (counterexample): the claim says every transition out of `paid` or
`cancelled` is rejected with the status unchanged; the admin status-update
route has no terminal check and moves a paid invoice to `overdue`. -/
theorem paid_invoice_transitions_on_admin_update :
    findInvoice stPaid 9 = some paidInvoice ∧
      paidInvoice.status = "paid" ∧
      statusOf (update_invoice_status (fun _ => true) stPaid 9 "overdue") 9
        = some "overdue" := by
  refine ⟨by decide, rfl, by decide⟩

/-- C5 (amended): only the customer payment route rejects terminal states
(leaving the state untouched); the admin status-update route applies any
of the four non-`sent` listed statuses unconditionally, regardless of the
invoice's current (possibly terminal) status. -/
theorem terminal_states_behavior :
    (∀ (st : DBState) (iid cust : Nat) (inv : Invoice),
        findInvoice st iid = some inv →
        (inv.status = "paid" ∨ inv.status = "cancelled") →
        customer_pay_invoice st iid cust = st) ∧
      (∀ (f : Invoice → Bool) (st : DBState) (iid : Nat) (s : String),
        (s = "draft" ∨ s = "paid" ∨ s = "overdue" ∨ s = "cancelled") →
        statusOf (update_invoice_status f st iid s) iid
          = (findInvoice st iid).map (fun _ => s)) := by
  constructor
  · intro st iid cust inv hfind hterm
    rcases hterm with h | h <;>
      simp [customer_pay_invoice, hfind, h]
  · intro f st iid s hs
    cases hfind : findInvoice st iid with
    | none =>
      rcases hs with rfl | rfl | rfl | rfl <;>
        simp [update_invoice_status, statusOf, hfind]
    | some inv =>
      rcases hs with rfl | rfl | rfl | rfl <;>
      · simp only [update_invoice_status, hfind]
        rw [if_pos (by decide), if_neg (by decide)]
        rw [statusOf_create_notification, statusOf_setStatus, hfind]

/-- Witness for C5: the terminal rejection and the unconditional admin
transition evaluated on the concrete paid invoice. -/
theorem terminal_states_behavior_witness :
    customer_pay_invoice stPaid 9 5 = stPaid ∧
      statusOf (update_invoice_status (fun _ => true) stPaid 9 "cancelled") 9
        = some "cancelled" := by
  constructor
  · exact terminal_states_behavior.1 stPaid 9 5 paidInvoice (by decide) (Or.inl rfl)
  · rw [terminal_states_behavior.2 (fun _ => true) stPaid 9 "cancelled"
      (Or.inr (Or.inr (Or.inr rfl)))]
    decide

/-- C8: the cycle processes exactly the invoices that are recurring, have
a non-null `next_send_date` at or before `now`, and are not cancelled;
and every successfully built child has `date = now`, the template's
due-date offset re-applied to `now`, the tax rate, notes, terms and title
copied verbatim, `is_recurring = false` and initial status `draft`. -/
theorem generator_selection_and_child (now : Int) (st : DBState) :
    (∀ inv : Invoice,
        inv ∈ st.invoices.filter (duePred now) ↔
          (inv ∈ st.invoices ∧ inv.is_recurring = true ∧
            (∃ d, inv.next_send_date = some d ∧ d ≤ now) ∧ inv.status ≠ "cancelled")) ∧
      (∀ (f : Invoice → Bool) (ym : String),
        process_recurring_invoices f ym now st
          = runLoop f ym now st (st.invoices.filter (duePred now))) ∧
      (∀ (ym : String) (t : Invoice) (c : Invoice),
        makeChild st ym now t = some c →
          c.date = now ∧ c.due_date = now + (t.due_date - t.date) ∧
            c.tax_rate = t.tax_rate ∧ c.notes = t.notes ∧ c.terms = t.terms ∧
            c.title = t.title ∧ c.is_recurring = false ∧ c.status = "draft") := by
  refine ⟨?_, fun _ _ => rfl, ?_⟩
  · intro inv
    rw [List.mem_filter]
    constructor
    · rintro ⟨hmem, hdue⟩
      simp only [duePred, Bool.and_eq_true, Bool.not_eq_true'] at hdue
      refine ⟨hmem, hdue.1.1, ?_, ?_⟩
      · cases hn : inv.next_send_date with
        | none => rw [hn] at hdue; exact absurd hdue.1.2 (by simp)
        | some d =>
          rw [hn] at hdue
          exact ⟨d, rfl, by simpa using hdue.1.2⟩
      · intro h
        rw [h] at hdue
        exact absurd hdue.2 (by simp)
    · rintro ⟨hmem, hrec, ⟨d, hd, hdle⟩, hstat⟩
      refine ⟨hmem, ?_⟩
      simp [duePred, hrec, hd, hdle, hstat]
  · intro ym t c hm
    have h := makeChild_fields st ym now t c hm
    exact ⟨h.1, h.2.1, h.2.2.1, h.2.2.2.1, h.2.2.2.2.1, h.2.2.2.2.2.1,
      h.2.2.2.2.2.2.1, h.2.2.2.2.2.2.2.1⟩

/-- Witness for C8: the selection predicate and the child-field contract
evaluated on the concrete template `tmplBBB`. -/
theorem generator_selection_and_child_witness :
    tmplBBB ∈ stOneTemplate.invoices.filter (duePred 1000) ∧
      childBBB.date = 1000 ∧ childBBB.status = "draft" := by
  have hg : generate_invoice_number
      (stOneTemplate.invoices.map (fun i => i.invoice_number)) "202401"
      (some tmplBBB.user) (some tmplBBB.client) "INV" = some "BBB-202401-0001" := by decide
  have hmc : makeChild stOneTemplate "202401" 1000 tmplBBB = some childBBB := by
    simp only [makeChild, hg, childBBB]
  have h := (generator_selection_and_child 1000 stOneTemplate).2.2 "202401" tmplBBB
    childBBB hmc
  exact ⟨((generator_selection_and_child 1000 stOneTemplate).1 tmplBBB).mpr
      ⟨by decide, rfl, ⟨100, rfl, by decide⟩, by decide⟩,
    h.1, h.2.2.2.2.2.2.2⟩

/-- C9 (counterexample): the claim says an explicit request prefix beats
the client's configured prefix; in the code the client's configured
prefix wins — with client prefix `CLI` and explicit request prefix `REQ`
the allocated number starts with `CLI`. -/
theorem client_prefix_beats_request_prefix :
    generate_invoice_number [] "202401" none (some clientCLI) "REQ"
        = some "CLI-202401-0001" ∧
      "CLI-202401-0001" ≠ "REQ-202401-0001" := by
  refine ⟨by decide, by decide⟩

/-- C9 (amended): prefix precedence is the client's configured prefix
first, then the issuing user's configured prefix, then the caller-supplied
prefix argument (which carries the explicit request prefix, defaulting to
`INV`); each source falls through only when absent or empty, and the
chosen prefix is upper-cased. -/
theorem prefix_resolution_behavior :
    (∀ (db : List String) (ym : String) (u : Option User) (c : Option Client) (p : String),
        generate_invoice_number db ym u c p = allocate_number db ym (resolvePrefix u c p)) ∧
      (∀ (u : Option User) (c : Option Client) (p cp : String),
        c.bind (fun x => x.invoicePrefix) = some cp → cp ≠ "" →
        resolvePrefix u c p = pyUpper cp) ∧
      (∀ (u : Option User) (c : Option Client) (p up : String),
        truthyStr (c.bind (fun x => x.invoicePrefix)) = false →
        u.bind (fun x => x.invoicePrefix) = some up → up ≠ "" →
        resolvePrefix u c p = pyUpper up) ∧
      (∀ (u : Option User) (c : Option Client) (p : String),
        truthyStr (c.bind (fun x => x.invoicePrefix)) = false →
        truthyStr (u.bind (fun x => x.invoicePrefix)) = false →
        resolvePrefix u c p = pyUpper p) := by
  refine ⟨fun _ _ _ _ _ => rfl, ?_, ?_, ?_⟩
  · intro u c p cp hc hne
    have ht : truthyStr (some cp) = true := by simp [truthyStr, hne]
    simp [resolvePrefix, hc, ht]
  · intro u c p up hc hu hne
    have ht : truthyStr (some up) = true := by simp [truthyStr, hne]
    simp [resolvePrefix, hc, hu, ht]
  · intro u c p hc hu
    simp [resolvePrefix, hc, hu]

/-- Witness for C9: the precedence chain evaluated on concrete users and
clients. -/
theorem prefix_resolution_behavior_witness :
    resolvePrefix (some sampleUser) (some clientCLI) "req" = pyUpper "CLI" ∧
      resolvePrefix (some sampleUser) none "req" = pyUpper "req" := by
  constructor
  · exact prefix_resolution_behavior.2.1 (some sampleUser) (some clientCLI) "req" "CLI"
      rfl (by decide)
  · exact prefix_resolution_behavior.2.2.2 (some sampleUser) none "req" rfl rfl

/-- C10: every child built by the generator has `is_recurring = false` and
null `frequency`, `initial_send_date` and `next_send_date`; consequently
`calculate_next_send_date` on a child is `none` and a child (whatever its
later status) never satisfies the due-template selection predicate, so
generated invoices never generate further invoices. -/
theorem generation_is_closed (ym : String) (now : Int) (st : DBState) (t : Invoice) :
    ((makeChild st ym now t).map (fun c =>
          (c.is_recurring, c.frequency, c.initial_send_date, c.next_send_date)))
        = ((makeChild st ym now t).map (fun _ =>
            ((false, none, none, none) : Bool × Option String × Option Int × Option Int))) ∧
      ((makeChild st ym now t).map (fun c => c.calculate_next_send_date))
        = ((makeChild st ym now t).map (fun _ => none)) ∧
      (∀ (n : Int) (s : String),
        ((makeChild st ym now t).map (fun c => duePred n { c with status := s }))
          = ((makeChild st ym now t).map (fun _ => false))) := by
  refine ⟨?_, ?_, ?_⟩
  · cases hm : makeChild st ym now t with
    | none => rfl
    | some c =>
      have h := makeChild_fields st ym now t c hm
      simp [h.2.2.2.2.2.2.1, h.2.2.2.2.2.2.2.2.1, h.2.2.2.2.2.2.2.2.2.1,
        h.2.2.2.2.2.2.2.2.2.2]
  · cases hm : makeChild st ym now t with
    | none => rfl
    | some c =>
      have h := makeChild_fields st ym now t c hm
      simp [Invoice.calculate_next_send_date, h.2.2.2.2.2.2.1]
  · intro n s
    cases hm : makeChild st ym now t with
    | none => rfl
    | some c =>
      have h := makeChild_fields st ym now t c hm
      simp [duePred, h.2.2.2.2.2.2.1]

end Webdev

